import Mathlib

/-!
Shallow embedding of the `ase` crate (`src/lib.rs`): a decoder for the
Aseprite binary sprite container and a compositing renderer.

Modelling conventions:
* Byte buffers (`&[u8]`) are `List Nat`; every byte consumed from a buffer is
  reduced `% 256`, matching `u8` semantics for all well-formed buffers.
* Rust panics (out-of-range slice indexing, `panic!` on invalid enum codes,
  `unwrap()` on decompression) are modelled as `Except.error` with a value of
  the `Abort` type naming the panic; the crate itself defines no error type,
  so every failure of the embedded functions is a modelled panic.
* Machine arithmetic is modelled with exact `Nat`/`Int` arithmetic except for
  `u16` operations that can visibly wrap (`width * height`, `width + 1`),
  which are reduced `% 65536` (release-mode wrapping semantics); signed
  little-endian reads use an explicit two's-complement reinterpretation.
* `flate2::read::ZlibDecoder` is an external library; it is modelled as an
  explicit function parameter `inflate : List Nat → Option (List Nat)`
  (`none` models a decoder failure, which the source `unwrap`s).
* `println!` calls in `Ase::render` are I/O only and have no data effect;
  they are omitted.
* `std::str::from_utf8_unchecked` is modelled as the identity on the byte
  list (decoded strings are kept as `List Nat` of bytes).
-/

/-- A Rust panic, as raised by the crate: slice/array index out of bounds,
`panic!` with a fixed message on an invalid enumerated code, or `unwrap()` on
a failed zlib decode. -/
inductive Abort
  | indexOutOfBounds
  | invalidLayerType
  | invalidChunkType
  | invalidCelType
  | invalidColorDepth
  | inflateFailure
  deriving Repr, DecidableEq

/-- `bytes[i]`: single-byte indexing into a byte slice; panics when out of
range. -/
def byteAt (l : List Nat) (i : Nat) : Except Abort Nat :=
  match l.get? i with
  | some v => .ok (v % 256)
  | none => .error .indexOutOfBounds

/-- `&raw[a..]`: suffix slice; panics when `a` exceeds the slice length. -/
def slice_from (l : List Nat) (a : Nat) : Except Abort (List Nat) :=
  if a ≤ l.length then .ok (l.drop a) else .error .indexOutOfBounds

/-- `&raw[a..b]`: range slice; panics when the range is invalid or past the
end. -/
def slice_range (l : List Nat) (a b : Nat) : Except Abort (List Nat) :=
  if a ≤ b ∧ b ≤ l.length then .ok ((l.drop a).take (b - a)) else .error .indexOutOfBounds

/-- `fn read_dword(bytes: &[u8]) -> u32`: little-endian unsigned 32-bit read
of `bytes[0..=3]`. -/
def read_dword (bytes : List Nat) : Except Abort Nat := do
  let b0 ← byteAt bytes 0
  let b1 ← byteAt bytes 1
  let b2 ← byteAt bytes 2
  let b3 ← byteAt bytes 3
  .ok (b0 + 256 * b1 + 65536 * b2 + 16777216 * b3)

/-- `fn read_word(bytes: &[u8]) -> u16`: little-endian unsigned 16-bit read
of `bytes[0..=1]`. -/
def read_word (bytes : List Nat) : Except Abort Nat := do
  let b0 ← byteAt bytes 0
  let b1 ← byteAt bytes 1
  .ok (b0 + 256 * b1)

/-- Reinterpret an unsigned 16-bit value as two's-complement `i16`. -/
def toSigned16 (n : Nat) : Int :=
  if n < 32768 then (n : Int) else (n : Int) - 65536

/-- Reinterpret an unsigned 32-bit value as two's-complement `i32`. -/
def toSigned32 (n : Nat) : Int :=
  if n < 2147483648 then (n : Int) else (n : Int) - 4294967296

/-- `fn read_short(bytes: &[u8]) -> i16`: little-endian signed 16-bit read. -/
def read_short (bytes : List Nat) : Except Abort Int := do
  let n ← read_word bytes
  .ok (toSigned16 n)

/-- `fn read_long(bytes: &[u8]) -> i32`: little-endian signed 32-bit read. -/
def read_long (bytes : List Nat) : Except Abort Int := do
  let n ← read_dword bytes
  .ok (toSigned32 n)

/-- `type Fixed = fixed::FixedI32<fixed::frac::U2>`, represented by its raw
bit pattern (`Fixed::from_bits`). -/
def Fixed := Int

instance : Repr Fixed := inferInstanceAs (Repr Int)

instance : DecidableEq Fixed := inferInstanceAs (DecidableEq Int)

/-- `fn read_fixed(bytes: &[u8]) -> Fixed`: `Fixed::from_bits(read_long(bytes))`. -/
def read_fixed (bytes : List Nat) : Except Abort Fixed := do
  let n ← read_long bytes
  .ok (n : Fixed)

/-- `fn read_string(bytes: &[u8]) -> (String, usize)`: 16-bit length prefix,
then that many text bytes (kept as raw bytes; the source's
`from_utf8_unchecked` performs no validation); returns the bytes and the
total consumed length `length + 2`. -/
def read_string (bytes : List Nat) : Except Abort (List Nat × Nat) := do
  let length ← read_word (← slice_from bytes 0)
  let raw_str ← slice_range bytes 2 (length + 2)
  .ok (raw_str, length + 2)

def HEADER_SIZE : Nat := 128

def FRAME_HEADER_SIZE : Nat := 16

/-- `enum ColorDepth`. -/
inductive ColorDepth
  | RGBA
  | GrayScale
  | Indexed
  deriving Repr, DecidableEq

/-- `impl From<u16> for ColorDepth`: 32 → RGBA, 16 → GrayScale, 8 → Indexed,
anything else panics. -/
def ColorDepth.fromRaw (word : Nat) : Except Abort ColorDepth :=
  match word with
  | 32 => .ok ColorDepth.RGBA
  | 16 => .ok ColorDepth.GrayScale
  | 8 => .ok ColorDepth.Indexed
  | _ => .error .invalidColorDepth

/-- `ColorDepth::offset`: bytes per pixel. -/
def ColorDepth.offset : ColorDepth → Nat
  | ColorDepth.RGBA => 4
  | ColorDepth.GrayScale => 2
  | ColorDepth.Indexed => 1

/-- `struct Header`. -/
structure Header where
  file_size : Nat
  magic_number : Nat
  frames : Nat
  width : Nat
  height : Nat
  color_depth : ColorDepth
  flags : Nat
  speed : Nat
  pallette_entry : Nat
  number_of_colors : Nat
  pixel_width : Nat
  pixel_height : Nat
  deriving Repr, DecidableEq

/-- `Header::new`: field-by-field decode of the fixed header prefix, in the
source's field order.  Only bytes 0–31 are ever read; there is no magic-value
check and no 128-byte length check. -/
def Header.new (raw : List Nat) : Except Abort Header := do
  let file_size ← read_dword (← slice_from raw 0)
  let magic_number ← read_word (← slice_from raw 4)
  let frames ← read_word (← slice_from raw 6)
  let width ← read_word (← slice_range raw 8 10)
  let height ← read_word (← slice_range raw 10 12)
  let color_depth ← ColorDepth.fromRaw (← read_word (← slice_range raw 12 14))
  let flags ← read_dword (← slice_range raw 14 18)
  let speed ← read_word (← slice_range raw 18 20)
  let pallette_entry ← byteAt raw 24
  let number_of_colors ← read_word (← slice_range raw 28 30)
  let pixel_width ← byteAt raw 30
  let pixel_height ← byteAt raw 31
  .ok { file_size := file_size, magic_number := magic_number, frames := frames,
        width := width, height := height, color_depth := color_depth,
        flags := flags, speed := speed, pallette_entry := pallette_entry,
        number_of_colors := number_of_colors, pixel_width := pixel_width,
        pixel_height := pixel_height }

/-- `enum Pixel`. -/
inductive Pixel
  | RGBA (r g b a : Nat)
  | GrayScale (value alpha : Nat)
  | Indexed (index : Nat)
  deriving Repr, DecidableEq

/-- `Pixel::new_rgba`. -/
def Pixel.new_rgba (raw : List Nat) : Except Abort Pixel := do
  let r ← byteAt raw 0
  let g ← byteAt raw 1
  let b ← byteAt raw 2
  let a ← byteAt raw 3
  .ok (Pixel.RGBA r g b a)

/-- `Pixel::new_gray_scale`. -/
def Pixel.new_gray_scale (raw : List Nat) : Except Abort Pixel := do
  let value ← byteAt raw 0
  let alpha ← byteAt raw 1
  .ok (Pixel.GrayScale value alpha)

/-- `Pixel::new_indexed`. -/
def Pixel.new_indexed (raw : List Nat) : Except Abort Pixel := do
  let index ← byteAt raw 0
  .ok (Pixel.Indexed index)

/-- `Pixel::new`. -/
def Pixel.new (color_depth : ColorDepth) (raw : List Nat) : Except Abort Pixel :=
  match color_depth with
  | ColorDepth.RGBA => Pixel.new_rgba raw
  | ColorDepth.GrayScale => Pixel.new_gray_scale raw
  | ColorDepth.Indexed => Pixel.new_indexed raw

/-- The loop body of `Pixel::new_pixels`: decode `count` pixels with
`pixel_fn` starting at `offset`, advancing by `step` bytes each time
(`pixels.push(pixel_fn(&raw[offset..]))`). -/
def Pixel.new_pixels_loop (pixel_fn : List Nat → Except Abort Pixel) (step : Nat)
    (raw : List Nat) : Nat → Nat → Except Abort (List Pixel)
  | 0, _ => .ok []
  | count + 1, offset => do
    let px ← pixel_fn (← slice_from raw offset)
    let rest ← Pixel.new_pixels_loop pixel_fn step raw count (offset + step)
    .ok (px :: rest)

/-- `Pixel::new_pixels`: select the per-depth decoder, then decode
`width * height` pixels (a `u16` product, hence `% 65536`). -/
def Pixel.new_pixels (color_depth : ColorDepth) (width height : Nat) (raw : List Nat) :
    Except Abort (List Pixel) :=
  let pixel_fn := match color_depth with
    | ColorDepth.RGBA => Pixel.new_rgba
    | ColorDepth.GrayScale => Pixel.new_gray_scale
    | ColorDepth.Indexed => Pixel.new_indexed
  Pixel.new_pixels_loop pixel_fn color_depth.offset raw ((width * height) % 65536) 0

/-- `struct CelBase`. -/
structure CelBase where
  layer_index : Nat
  x : Int
  y : Int
  opacity : Nat
  deriving Repr, DecidableEq

/-- `CelBase::new`. -/
def CelBase.new (raw : List Nat) : Except Abort CelBase := do
  let layer_index ← read_word (← slice_from raw 0)
  let x ← read_short (← slice_from raw 2)
  let y ← read_short (← slice_from raw 4)
  let opacity ← byteAt raw 6
  .ok { layer_index := layer_index, x := x, y := y, opacity := opacity }

/-- `CelBase::offset`. -/
def CelBase.offset : Nat := 7

/-- `struct RawCel`. -/
structure RawCel where
  base : CelBase
  width : Nat
  height : Nat
  pixels : List Pixel
  deriving Repr, DecidableEq

/-- `RawCel::new`: width and height are the 16-bit fields at bytes 16/18
**plus one** (`read_word(..) + 1`, a `u16` increment), pixels start at
byte 20. -/
def RawCel.new (color_depth : ColorDepth) (raw : List Nat) : Except Abort RawCel := do
  let offset := CelBase.offset + 9
  let width := ((← read_word (← slice_from raw offset)) + 1) % 65536
  let height := ((← read_word (← slice_from raw (offset + 2))) + 1) % 65536
  let base ← CelBase.new raw
  let pixels ← Pixel.new_pixels color_depth width height (← slice_from raw (offset + 4))
  .ok { base := base, width := width, height := height, pixels := pixels }

/-- `RawCel::from_compressed`: width and height are the 16-bit fields taken
verbatim (no `+ 1`); the remaining bytes are inflated (`ZlibDecoder` +
`read_to_end` + `unwrap`, modelled by the `inflate` parameter) and parsed as
pixels. -/
def RawCel.from_compressed (inflate : List Nat → Option (List Nat))
    (color_depth : ColorDepth) (raw : List Nat) : Except Abort RawCel := do
  let offset := CelBase.offset + 9
  let width ← read_word (← slice_from raw offset)
  let height ← read_word (← slice_from raw (offset + 2))
  let data ← match inflate (← slice_from raw (offset + 4)) with
    | some d => Except.ok d
    | none => Except.error Abort.inflateFailure
  let base ← CelBase.new raw
  let pixels ← Pixel.new_pixels color_depth width height data
  .ok { base := base, width := width, height := height, pixels := pixels }

/-- `x as usize` for a (signed) value already reduced from `i16`:
sign-extension to 64 bits reinterpreted as unsigned. -/
def usize_of_int (x : Int) : Nat :=
  (x % 18446744073709551616).toNat

/-- `RawCel::map_pixel`: maps a cel-local pixel index to a canvas offset.
The row is `idx / self.width`, the column `idx % self.width`; the result is
`row * width + (col + self.base.x as usize)`.  The cel's `y` offset is not
used. -/
def RawCel.map_pixel (c : RawCel) (idx : Nat) (width : Nat) : Nat :=
  let row := idx / c.width
  let col := idx % c.width
  (row * width) + (col + usize_of_int c.base.x)

/-- `struct LinkedCel`. -/
structure LinkedCel where
  base : CelBase
  frame_position : Nat
  deriving Repr, DecidableEq

/-- `LinkedCel::new`: note `frame_position` is read at `CelBase::offset()`
(byte 7), which is the cel-type field itself. -/
def LinkedCel.new (raw : List Nat) : Except Abort LinkedCel := do
  let base ← CelBase.new raw
  let frame_position ← read_word (← slice_from raw CelBase.offset)
  .ok { base := base, frame_position := frame_position }

/-- `struct CompressedCel` (declared in the source but never constructed by
`Cel::new`). -/
structure CompressedCel where
  base : CelBase
  width : Nat
  height : Nat
  data : List Nat
  deriving Repr, DecidableEq

/-- `CompressedCel::new` (unused by the decode path, kept for fidelity). -/
def CompressedCel.new (raw : List Nat) : Except Abort CompressedCel := do
  let offset := CelBase.offset
  let width ← read_word (← slice_from raw offset)
  let height ← read_word (← slice_from raw (offset + 2))
  let base ← CelBase.new raw
  let data ← slice_from raw (offset + 4)
  .ok { base := base, width := width, height := height, data := data }

/-- `enum Cel`. -/
inductive Cel
  | Raw (c : RawCel)
  | Linked (c : LinkedCel)
  | Compressed (c : CompressedCel)
  deriving Repr, DecidableEq

/-- `Cel::new`: dispatch on the 16-bit cel type at byte 7; type 0 and type 2
both produce `Cel::Raw` (a compressed cel is materialized), type 1 produces
`Cel::Linked`, anything else panics. -/
def Cel.new (inflate : List Nat → Option (List Nat)) (header : Header)
    (raw : List Nat) : Except Abort Cel := do
  let cel_type ← read_word (← slice_from raw 7)
  match cel_type with
  | 0 => do
    let c ← RawCel.new header.color_depth raw
    .ok (Cel.Raw c)
  | 1 => do
    let c ← LinkedCel.new raw
    .ok (Cel.Linked c)
  | 2 => do
    let c ← RawCel.from_compressed inflate header.color_depth raw
    .ok (Cel.Raw c)
  | _ => .error .invalidCelType

/-- `Cel::layer_index`. -/
def Cel.layer_index : Cel → Nat
  | Cel.Raw c => c.base.layer_index
  | Cel.Linked c => c.base.layer_index
  | Cel.Compressed c => c.base.layer_index

/-- `enum LayerType`. -/
inductive LayerType
  | Normal
  | Group
  deriving Repr, DecidableEq

/-- `impl From<u16> for LayerType`: 0 → Normal, 1 → Group, anything else
panics. -/
def LayerType.fromRaw (raw : Nat) : Except Abort LayerType :=
  match raw with
  | 0 => .ok LayerType.Normal
  | 1 => .ok LayerType.Group
  | _ => .error .invalidLayerType

/-- `struct Layer`. -/
structure Layer where
  flags : Nat
  layer_type : LayerType
  child_level : Nat
  default_width : Nat
  default_height : Nat
  blend_mode : Nat
  opacity : Nat
  name : List Nat
  cels : List Cel
  deriving Repr, DecidableEq

/-- `struct PalletteEntry`. -/
structure PalletteEntry where
  flags : Nat
  red : Nat
  green : Nat
  blue : Nat
  alpha : Nat
  color_name : List Nat
  deriving Repr, DecidableEq

/-- `struct SliceKey`. -/
structure SliceKey where
  frame_number : Nat
  x : Int
  y : Int
  width : Nat
  height : Nat
  center_x : Int
  center_y : Int
  center_width : Nat
  center_height : Nat
  pivot_x : Int
  pivot_y : Int
  deriving Repr, DecidableEq

/-- `enum Chunk`. -/
inductive Chunk
  | OldPallette
  | OtherOldPallette
  | Layer (layer : Layer)
  | Cel (cel : Cel)
  | CelExtra (flags : Nat) (x y width height : Fixed)
  | ColorProfile (profile_type flags : Nat) (gamma : Fixed) (icc_size : Nat)
      (icc_data : List Nat)
  | Mask (x y : Int) (width height : Nat) (mask_name : List Nat) (data : List Nat)
  | FrameTags
  | Pallette (size first_color_index last_color_index : Nat)
      (entries : List PalletteEntry)
  | Slice (key_count flags : Nat) (name : List Nat) (keys : List SliceKey)
  | Path
  deriving Repr, DecidableEq

/-- `Chunk::new_layer`. -/
def Chunk.new_layer (raw : List Nat) : Except Abort Chunk := do
  let (name, _) ← read_string (← slice_from raw 16)
  let flags ← read_word (← slice_from raw 0)
  let layer_type ← LayerType.fromRaw (← read_word (← slice_from raw 2))
  let child_level ← read_word (← slice_from raw 4)
  let default_width ← read_word (← slice_from raw 6)
  let default_height ← read_word (← slice_from raw 8)
  let blend_mode ← read_word (← slice_from raw 10)
  let opacity ← byteAt raw 12
  .ok (Chunk.Layer
    { flags := flags, layer_type := layer_type,
      child_level := child_level, default_width := default_width,
      default_height := default_height, blend_mode := blend_mode,
      opacity := opacity, name := name, cels := [] })

/-- `Chunk::new_color_profile` (the ICC payload is declared but not parsed). -/
def Chunk.new_color_profile (raw : List Nat) : Except Abort Chunk := do
  let profile_type ← read_word (← slice_from raw 0)
  let flags ← read_word (← slice_from raw 2)
  let gamma ← read_fixed (← slice_from raw 4)
  .ok (Chunk.ColorProfile profile_type flags gamma 0 [])

/-- `Chunk::new_mask`.  `data_size` is computed in `u16` arithmetic, hence
the `% 65536` reductions. -/
def Chunk.new_mask (raw : List Nat) : Except Abort Chunk := do
  let width ← read_word (← slice_from raw 4)
  let height ← read_word (← slice_from raw 6)
  let (mask_name, offset) ← read_string (← slice_from raw 8)
  let data_size := (height * (((width + 7) % 65536) / 8)) % 65536
  let x ← read_short (← slice_from raw 0)
  let y ← read_short (← slice_from raw 2)
  let data ← slice_range raw (10 + offset) (10 + offset + data_size)
  .ok (Chunk.Mask x y width height mask_name data)

/-- `Chunk::new_cel`. -/
def Chunk.new_cel (inflate : List Nat → Option (List Nat)) (header : Header)
    (raw : List Nat) : Except Abort Chunk := do
  let c ← Cel.new inflate header raw
  .ok (Chunk.Cel c)

/-- `Chunk::new_cel_extra`. -/
def Chunk.new_cel_extra (raw : List Nat) : Except Abort Chunk := do
  let flags ← read_dword (← slice_from raw 0)
  let x ← read_fixed (← slice_from raw 4)
  let y ← read_fixed (← slice_from raw 8)
  let width ← read_fixed (← slice_from raw 12)
  let height ← read_fixed (← slice_from raw 16)
  .ok (Chunk.CelExtra flags x y width height)

/-- `Chunk::new_pallette` (entries are not parsed). -/
def Chunk.new_pallette (raw : List Nat) : Except Abort Chunk := do
  let size ← read_dword (← slice_from raw 0)
  let first_color_index ← read_dword (← slice_from raw 4)
  let last_color_index ← read_dword (← slice_from raw 8)
  .ok (Chunk.Pallette size first_color_index last_color_index [])

/-- `Chunk::new_slice` (keys are not parsed). -/
def Chunk.new_slice (raw : List Nat) : Except Abort Chunk := do
  let (name, _) ← read_string (← slice_from raw 8)
  let key_count ← read_dword (← slice_from raw 0)
  let flags ← read_dword (← slice_from raw 4)
  .ok (Chunk.Slice key_count flags name [])

/-- `Chunk::new`: read the declared chunk size and the 16-bit type tag, then
dispatch; the cel decoder receives `&raw[6..size]`, every other variant
receives `&raw[6..]`; an unrecognized tag panics.  Returns the chunk and the
declared size. -/
def Chunk.new (inflate : List Nat → Option (List Nat)) (header : Header)
    (raw : List Nat) : Except Abort (Chunk × Nat) := do
  let size ← read_dword (← slice_from raw 0)
  let chunk_type ← read_word (← slice_from raw 4)
  let chunk ← match chunk_type with
    | 0x0004 => Except.ok Chunk.OldPallette
    | 0x0011 => Except.ok Chunk.OtherOldPallette
    | 0x2004 => Chunk.new_layer (← slice_from raw 6)
    | 0x2005 => Chunk.new_cel inflate header (← slice_range raw 6 size)
    | 0x2006 => Chunk.new_cel_extra (← slice_from raw 6)
    | 0x2007 => Chunk.new_color_profile (← slice_from raw 6)
    | 0x2016 => Chunk.new_mask (← slice_from raw 6)
    | 0x2017 => Except.ok Chunk.Path
    | 0x2018 => Except.ok Chunk.FrameTags
    | 0x2019 => Chunk.new_pallette (← slice_from raw 6)
    | 0x2022 => Chunk.new_slice (← slice_from raw 6)
    | _ => Except.error Abort.invalidChunkType
  .ok (chunk, size)

/-- `struct Frame`. -/
structure Frame where
  size : Nat
  magic_number : Nat
  old_chunks : Nat
  frame_duration : Nat
  new_chunks : Nat
  chunks : List Chunk
  layers : List Layer
  deriving Repr, DecidableEq

/-- The chunk loop of `Frame::new`: decode `count` chunks starting at
`offset`, advancing by each chunk's declared size.  A `Layer` chunk is pushed
onto the frame's own layer list; a `Cel` chunk is pushed onto
`frame.layers[cel.layer_index()].cels` (an out-of-range index panics); every
other chunk goes to `frame.chunks`. -/
def Frame.processChunks (inflate : List Nat → Option (List Nat)) (header : Header)
    (raw : List Nat) : Nat → Nat → Frame → Except Abort Frame
  | _, 0, frame => .ok frame
  | offset, count + 1, frame => do
    let s ← slice_from raw offset
    let (chunk, size) ← Chunk.new inflate header s
    let offset := offset + size
    let frame ← match chunk with
      | Chunk.Layer layer =>
        Except.ok { frame with layers := frame.layers ++ [layer] }
      | Chunk.Cel cel =>
        match frame.layers.get? cel.layer_index with
        | some l =>
          Except.ok
            { frame with layers :=
                frame.layers.set cel.layer_index { l with cels := l.cels ++ [cel] } }
        | none => Except.error Abort.indexOutOfBounds
      | c => Except.ok { frame with chunks := frame.chunks ++ [c] }
    Frame.processChunks inflate header raw offset count frame

/-- `Frame::new`: decode the 16-byte frame header, then run the chunk loop
`chunk_count` times, where `chunk_count` is `new_chunks` when it is nonzero
and `old_chunks` otherwise. -/
def Frame.new (inflate : List Nat → Option (List Nat)) (header : Header)
    (raw : List Nat) : Except Abort Frame := do
  let size ← read_dword (← slice_from raw 0)
  let magic_number ← read_word (← slice_from raw 4)
  let old_chunks ← read_word (← slice_from raw 6)
  let frame_duration ← read_word (← slice_from raw 8)
  let new_chunks ← read_dword (← slice_from raw 12)
  let frame : Frame :=
    { size := size, magic_number := magic_number,
      old_chunks := old_chunks, frame_duration := frame_duration,
      new_chunks := new_chunks, chunks := [], layers := [] }
  let chunk_count := if frame.new_chunks = 0 then frame.old_chunks else frame.new_chunks
  Frame.processChunks inflate header raw FRAME_HEADER_SIZE chunk_count frame

/-- `struct Ase`. -/
structure Ase where
  header : Header
  frames : List Frame
  deriving Repr, DecidableEq

/-- The frame loop of `Ase::new`: decode `count` frames, advancing by each
frame's declared size. -/
def Ase.new_frames (inflate : List Nat → Option (List Nat)) (header : Header)
    (raw : List Nat) : Nat → Nat → Except Abort (List Frame)
  | _, 0 => .ok []
  | offset, count + 1 => do
    let frame ← Frame.new inflate header (← slice_from raw offset)
    let rest ← Ase.new_frames inflate header raw (offset + frame.size) count
    .ok (frame :: rest)

/-- `Ase::new`: decode the header, then `header.frames` frames starting at
byte 128. -/
def Ase.new (inflate : List Nat → Option (List Nat)) (raw : List Nat) :
    Except Abort Ase := do
  let header ← Header.new raw
  let frames ← Ase.new_frames inflate header raw HEADER_SIZE header.frames
  .ok { header := header, frames := frames }

/-- `image_data[idx] = v`: checked write into the output buffer; panics when
`idx` is out of range. -/
def writeByte (img : List Nat) (idx : Nat) (v : Nat) : Except Abort (List Nat) :=
  if idx < img.length then .ok (img.set idx v) else .error .indexOutOfBounds

/-- One iteration of the pixel loop in `Ase::render`: an RGBA pixel is
written at `map_pixel(i, width) * offset` (four positional byte writes); a
GrayScale or Indexed pixel is *pushed* onto the end of the buffer. -/
def renderPixel (c : RawCel) (width bpp : Nat) (img : List Nat) (i : Nat)
    (px : Pixel) : Except Abort (List Nat) :=
  match px with
  | Pixel.RGBA r g b a => do
    let idx := c.map_pixel i width * bpp
    let img ← writeByte img idx r
    let img ← writeByte img (idx + 1) g
    let img ← writeByte img (idx + 2) b
    writeByte img (idx + 3) a
  | Pixel.GrayScale value alpha => .ok (img ++ [value, alpha])
  | Pixel.Indexed index => .ok (img ++ [index])

/-- The enumerated pixel loop of `Ase::render` over one raw cel. -/
def renderPixels (c : RawCel) (width bpp : Nat) : Nat → List Pixel → List Nat →
    Except Abort (List Nat)
  | _, [], img => .ok img
  | i, px :: rest, img => do
    let img ← renderPixel c width bpp img i px
    renderPixels c width bpp (i + 1) rest img

/-- The per-cel body of `Ase::render`: only `Cel::Raw` writes pixels. -/
def renderCel (width bpp : Nat) (cel : Cel) (img : List Nat) :
    Except Abort (List Nat) :=
  match cel with
  | Cel.Raw c => renderPixels c width bpp 0 c.pixels img
  | _ => .ok img

/-- The per-layer cel loop of `Ase::render`. -/
def renderCels (width bpp : Nat) : List Cel → List Nat → Except Abort (List Nat)
  | [], img => .ok img
  | cel :: rest, img => do
    let img ← renderCel width bpp cel img
    renderCels width bpp rest img

/-- The per-frame layer loop of `Ase::render`. -/
def renderLayers (width bpp : Nat) : List Layer → List Nat → Except Abort (List Nat)
  | [], img => .ok img
  | layer :: rest, img => do
    let img ← renderCels width bpp layer.cels img
    renderLayers width bpp rest img

/-- The frame loop of `Ase::render`: every frame of the document is walked. -/
def renderFrames (width bpp : Nat) : List Frame → List Nat → Except Abort (List Nat)
  | [], img => .ok img
  | frame :: rest, img => do
    let img ← renderLayers width bpp frame.layers img
    renderFrames width bpp rest img

/-- `Ase::render`: allocate a zeroed buffer of
`width * height * color_depth.offset()` bytes, then walk every frame, layer
and cel of the document, writing pixel data as in `renderPixel`.  There is no
frame-index parameter and no failure path other than a panic on an
out-of-range buffer write. -/
def Ase.render (a : Ase) : Except Abort (List Nat) :=
  let width := a.header.width
  let height := a.header.height
  let bpp := a.header.color_depth.offset
  let image_data : List Nat := List.replicate (width * height * bpp) 0
  renderFrames width bpp a.frames image_data

/-! ## Concrete inputs used to settle the claims -/

/-- A zlib inflater that always fails; used on inputs whose decode path never
reaches inflation. -/
def inflate0 : List Nat → Option (List Nat) := fun _ => none

/-- A decoded header for a 10×10 RGBA canvas (magic 0xA5E0). -/
def hdrRGBA : Header :=
  { file_size := 0, magic_number := 42464, frames := 1, width := 10, height := 10,
    color_depth := ColorDepth.RGBA, flags := 0, speed := 0, pallette_entry := 0,
    number_of_colors := 0, pixel_width := 1, pixel_height := 1 }

/-- A decoded document: 10×10 RGBA canvas, one frame, one layer, one 2×2 Raw
cel placed at (x = 3, y = 1) whose pixels are all `RGBA 9 9 9 9`. -/
def doc_c1 : Ase :=
  { header := hdrRGBA,
    frames := [
      { size := 0, magic_number := 0, old_chunks := 0, frame_duration := 0,
        new_chunks := 0, chunks := [],
        layers := [
          { flags := 0, layer_type := LayerType.Normal, child_level := 0,
            default_width := 0, default_height := 0, blend_mode := 0,
            opacity := 255, name := [],
            cels := [Cel.Raw
              { base := { layer_index := 0, x := 3, y := 1, opacity := 255 },
                width := 2, height := 2,
                pixels := [Pixel.RGBA 9 9 9 9, Pixel.RGBA 9 9 9 9,
                           Pixel.RGBA 9 9 9 9, Pixel.RGBA 9 9 9 9] }] }] }] }

/-- A decoded document: 1×1 GrayScale canvas, one 1×1 Raw cel at (0, 0) with
pixel `GrayScale 5 6`. -/
def doc_c2 : Ase :=
  { header :=
      { file_size := 0, magic_number := 42464, frames := 1, width := 1, height := 1,
        color_depth := ColorDepth.GrayScale, flags := 0, speed := 0,
        pallette_entry := 0, number_of_colors := 0, pixel_width := 1, pixel_height := 1 },
    frames := [
      { size := 0, magic_number := 0, old_chunks := 0, frame_duration := 0,
        new_chunks := 0, chunks := [],
        layers := [
          { flags := 0, layer_type := LayerType.Normal, child_level := 0,
            default_width := 0, default_height := 0, blend_mode := 0,
            opacity := 255, name := [],
            cels := [Cel.Raw
              { base := { layer_index := 0, x := 0, y := 0, opacity := 255 },
                width := 1, height := 1,
                pixels := [Pixel.GrayScale 5 6] }] }] }] }

/-- A decoded document: 1×1 Indexed canvas, one 1×1 Raw cel at (0, 0) with
pixel `Indexed 3`. -/
def doc_c2i : Ase :=
  { header :=
      { file_size := 0, magic_number := 42464, frames := 1, width := 1, height := 1,
        color_depth := ColorDepth.Indexed, flags := 0, speed := 0,
        pallette_entry := 0, number_of_colors := 0, pixel_width := 1, pixel_height := 1 },
    frames := [
      { size := 0, magic_number := 0, old_chunks := 0, frame_duration := 0,
        new_chunks := 0, chunks := [],
        layers := [
          { flags := 0, layer_type := LayerType.Normal, child_level := 0,
            default_width := 0, default_height := 0, blend_mode := 0,
            opacity := 255, name := [],
            cels := [Cel.Raw
              { base := { layer_index := 0, x := 0, y := 0, opacity := 255 },
                width := 1, height := 1,
                pixels := [Pixel.Indexed 3] }] }] }] }

/-- Frame bytes: a 16-byte frame header declaring one legacy chunk, followed
by one 15-byte Cel chunk (type 0x2005) whose payload is a Linked cel with
layer index 0 — while the frame declares no Layer chunk at all. -/
def bytes_c3 : List Nat :=
  [31, 0, 0, 0, 0, 0, 1, 0, 0, 0, 0, 0, 0, 0, 0, 0,
   15, 0, 0, 0, 5, 32, 0, 0, 0, 0, 0, 0, 255, 1, 0]

/-- A 128-byte header buffer whose magic field (bytes 4–5) is 0 instead of
0xA5E0, with a legal color depth (32). -/
def buf_c4_wrongmagic : List Nat :=
  [128, 0, 0, 0, 0, 0, 0, 0, 1, 0, 1, 0, 32, 0] ++ List.replicate 114 0

/-- A 128-byte header buffer with the correct magic (0xA5E0 = [224, 165])
but an illegal color-depth code 7. -/
def buf_c4_baddepth : List Nat :=
  [128, 0, 0, 0, 224, 165, 0, 0, 1, 0, 1, 0, 7, 0] ++ List.replicate 114 0

/-- A 32-byte buffer (shorter than the 128-byte header) with correct magic
and a legal color depth. -/
def buf_c4_short : List Nat :=
  [128, 0, 0, 0, 224, 165, 0, 0, 1, 0, 1, 0, 32, 0] ++ List.replicate 18 0

/-- A decoded document with two frames on a 1×1 RGBA canvas: frame 0 has one
layer and *no* cels, frame 1 has one layer with a 1×1 Raw cel at (0, 0)
whose pixel is `RGBA 255 0 0 255`. -/
def doc_c5 : Ase :=
  { header :=
      { file_size := 0, magic_number := 42464, frames := 2, width := 1, height := 1,
        color_depth := ColorDepth.RGBA, flags := 0, speed := 0, pallette_entry := 0,
        number_of_colors := 0, pixel_width := 1, pixel_height := 1 },
    frames := [
      { size := 0, magic_number := 0, old_chunks := 0, frame_duration := 0,
        new_chunks := 0, chunks := [],
        layers := [
          { flags := 0, layer_type := LayerType.Normal, child_level := 0,
            default_width := 0, default_height := 0, blend_mode := 0,
            opacity := 255, name := [], cels := [] }] },
      { size := 0, magic_number := 0, old_chunks := 0, frame_duration := 0,
        new_chunks := 0, chunks := [],
        layers := [
          { flags := 0, layer_type := LayerType.Normal, child_level := 0,
            default_width := 0, default_height := 0, blend_mode := 0,
            opacity := 255, name := [],
            cels := [Cel.Raw
              { base := { layer_index := 0, x := 0, y := 0, opacity := 255 },
                width := 1, height := 1,
                pixels := [Pixel.RGBA 255 0 0 255] }] }] }] }

/-- `true` iff the pixel is the RGBA variant. -/
def Pixel.isRGBA : Pixel → Bool
  | Pixel.RGBA _ _ _ _ => true
  | _ => false

/-- `true` iff every pixel of a Raw cel is RGBA (non-Raw cels write nothing
during rendering). -/
def Cel.rgbaOnly : Cel → Bool
  | Cel.Raw c => c.pixels.all Pixel.isRGBA
  | _ => true

/-- `true` iff every pixel of every Raw cel in the document is RGBA. -/
def Ase.rgbaOnly (a : Ase) : Bool :=
  a.frames.all fun f => f.layers.all fun l => l.cels.all Cel.rgbaOnly

/-- Cel-chunk payload bytes for a Compressed cel (type 2): layer index 0,
x = 0, y = 0, opacity 255, width field 1, height field 1, then a compressed
payload (three placeholder bytes handed to the inflater). -/
def bytes_c6_compressed : List Nat :=
  [0, 0, 0, 0, 0, 0, 255, 2, 0, 0, 0, 0, 0, 0, 0, 0, 1, 0, 1, 0, 99, 98, 97]

/-- Cel-chunk payload bytes for a Raw cel (type 0) with the same base and
the same width/height fields (1, 1), carrying the four pixel bytes
`[1, 2, 3, 4]` directly. -/
def bytes_c6_raw : List Nat :=
  [0, 0, 0, 0, 0, 0, 255, 0, 0, 0, 0, 0, 0, 0, 0, 0, 1, 0, 1, 0, 1, 2, 3, 4]

/-- Models the external zlib inflater on the payload of
`bytes_c6_compressed`: that payload decompresses to the pixel buffer
`P = [1, 2, 3, 4]` (one RGBA pixel). -/
def inflate_c6 : List Nat → Option (List Nat) := fun _ => some [1, 2, 3, 4]

/-- Cel-chunk payload bytes for a Raw cel (type 0) whose width and height
fields are both 0, followed by four pixel bytes `[9, 8, 7, 6]`. -/
def bytes_c7_raw : List Nat :=
  [0, 0, 0, 0, 0, 0, 255, 0, 0, 0, 0, 0, 0, 0, 0, 0, 0, 0, 0, 0, 9, 8, 7, 6]

/-- One Path chunk (type 0x2017 = [23, 32]) of declared size 6: a chunk with
no payload. -/
def pathChunkBytes : List Nat := [6, 0, 0, 0, 23, 32]

/-- `k` consecutive Path chunks. -/
def pathStream : Nat → List Nat
  | 0 => []
  | k + 1 => pathChunkBytes ++ pathStream k

/-- Frame bytes with legacy chunk count `old` (16-bit), extended chunk count
`new` (32-bit) and `k` Path chunks following the 16-byte frame header. -/
def frameBytes_c8 (old new k : Nat) : List Nat :=
  0 :: 0 :: 0 :: 0 :: 0 :: 0 :: (old % 256) :: (old / 256) :: 0 :: 0 :: 0 :: 0 ::
  (new % 256) :: (new / 256 % 256) :: (new / 65536 % 256) :: (new / 16777216 % 256) ::
  pathStream k

/-- A 128-byte header buffer: correct magic, RGBA depth, zeros from byte 32
on. -/
def buf_c10_a : List Nat :=
  [128, 0, 0, 0, 224, 165, 0, 0, 1, 0, 1, 0, 32, 0] ++ List.replicate 114 0

/-- The same first 32 bytes as `buf_c10_a`, but every reserved byte from
offset 32 to 127 is 42 instead of 0. -/
def buf_c10_b : List Nat :=
  [128, 0, 0, 0, 224, 165, 0, 0, 1, 0, 1, 0, 32, 0] ++ List.replicate 18 0 ++
  List.replicate 96 42

/-! ## Claim theorems -/

set_option maxRecDepth 100000 in
/-- Claim C1 (code bug): rendering `doc_c1` (a 2×2 Raw cel placed at
(x = 3, y = 1) on a 10×10 RGBA canvas) writes the cel's first pixel at byte
offset 12 = (0 × 10 + 3) × 4 — canvas row 0, column 3 — and leaves byte
offset 92 = (2 × 10 + 3) × 4 — canvas row 2, column 3 — at its initial zero,
because `RawCel::map_pixel` never adds `cel.y` to the row.  The claim's
placement rule (absolute row = local row + cel.y, so writes only at rows
1–2) requires exactly the opposite: offset 12 still zero and offset 92
written. -/
theorem render_ignores_cel_y_c1 :
    (Ase.render doc_c1).map (fun buf => (buf[12]?, buf[92]?, buf.length)) =
      .ok (some 9, some 0, 400) := rfl

/-- Claim C2 (code bug): rendering a 1×1 GrayScale document appends the
cel's two pixel bytes to the end of the zero-initialized buffer, producing
`[0, 0, 5, 6]` of length 4 instead of a positional write into a buffer of
length 1 × 1 × 2 = 2; likewise a 1×1 Indexed document renders to `[0, 3]` of
length 2 instead of 1 × 1 × 1 = 1. -/
theorem render_appends_gray_indexed_c2 :
    Ase.render doc_c2 = .ok [0, 0, 5, 6] ∧ Ase.render doc_c2i = .ok [0, 3] :=
  ⟨rfl, rfl⟩

/-- Claim C3 (code bug): decoding a frame containing a Cel chunk with layer
index 0 while no Layer chunk has been declared aborts with an
index-out-of-bounds panic (`frame.layers[cel.layer_index()]`), not with a
typed `InvalidLayerReference` error; moreover `Frame::new` only consults the
frame-local `frame.layers` list, so a layer declared in an earlier frame is
never visible here. -/
theorem frame_cel_layer_panic_c3 :
    Frame.new inflate0 hdrRGBA bytes_c3 = .error Abort.indexOutOfBounds := rfl

set_option maxRecDepth 100000 in
/-- Claim C4 (code bug): `Header::new` performs no validation at all — a
buffer whose magic field is 0 (not 0xA5E0) decodes successfully; an illegal
color-depth code aborts with a panic (`Invalid color depth!`), not a typed
`MalformedHeader`; a 3-byte input aborts with an index panic; and a 32-byte
buffer (shorter than the 128-byte header) decodes successfully. -/
theorem header_no_validation_c4 :
    (Header.new buf_c4_wrongmagic).map (fun h => h.magic_number) = .ok 0 ∧
    Header.new buf_c4_baddepth = .error Abort.invalidColorDepth ∧
    Header.new [1, 2, 3] = .error Abort.indexOutOfBounds ∧
    (Header.new buf_c4_short).map (fun h => (h.width, h.height)) = .ok (1, 1) :=
  ⟨rfl, rfl, rfl, rfl⟩

/-- Claim C5, counterexample: `Ase::render` takes no frame index and walks
every frame.  In `doc_c5` frame 0 contains no cels, so a composite of frame
0's cels alone would be the zero buffer `replicate (1*1*4) 0`; the actual
render output contains frame 1's pixel and differs from it, and no
`FrameIndexOutOfRange` failure path exists in the operation's type. -/
theorem render_no_frame_selection_c5 :
    Ase.render doc_c5 = .ok [255, 0, 0, 255] ∧
    ([255, 0, 0, 255] : List Nat) ≠ List.replicate (1 * 1 * 4) 0 :=
  ⟨rfl, by decide⟩

/-- Claim C6 (code bug): with the external inflater mapping the compressed
payload of `bytes_c6_compressed` to `P = [1, 2, 3, 4]`, the Compressed cel
(width/height fields 1, 1) decodes to a 1×1 Raw cel with pixels `P`; the Raw
cel `bytes_c6_raw` with the *same* width/height fields carrying `P` directly
decodes its dimensions as 2×2 (`RawCel::new` adds 1 to each field) and
aborts trying to read four RGBA pixels from four bytes — the two decodes are
not equivalent as the claim requires.  (Both successful cel decodes are
`Cel::Raw`; no `Compressed` variant is retained.) -/
theorem compressed_raw_divergence_c6 :
    Cel.new inflate_c6 hdrRGBA bytes_c6_compressed =
      .ok (Cel.Raw
        { base := { layer_index := 0, x := 0, y := 0, opacity := 255 },
          width := 1, height := 1, pixels := [Pixel.RGBA 1 2 3 4] }) ∧
    Cel.new inflate_c6 hdrRGBA bytes_c6_raw = .error Abort.indexOutOfBounds :=
  ⟨rfl, rfl⟩

/-- Claim C7 (code bug): a Raw cel whose two 16-bit dimension fields are
both 0 decodes with `width = 1` and `height = 1` — the fields *plus one*
(`read_word(..) + 1` in `RawCel::new`) — and reads 1 × 1 pixels, while the
claim requires the decoded dimensions to equal the fields exactly. -/
theorem rawcel_width_plus_one_c7 :
    Cel.new inflate0 hdrRGBA bytes_c7_raw =
      .ok (Cel.Raw
        { base := { layer_index := 0, x := 0, y := 0, opacity := 255 },
          width := 1, height := 1, pixels := [Pixel.RGBA 9 8 7 6] }) := rfl

/-- Claim C9 (code bug): the primitive readers produce the claimed values on
sufficiently long inputs (`[1,0,0,0]` → 1, `[0,1]` → 256), but on a too-short
slice they abort with an index-out-of-bounds panic — the crate has no typed
`TruncatedInput` error, so the failure is a process abort, not a recoverable
result. -/
theorem primitive_reader_panics_c9 :
    read_dword [1, 0, 0, 0] = .ok 1 ∧
    read_word [0, 1] = .ok 256 ∧
    read_dword [1, 0] = .error Abort.indexOutOfBounds ∧
    read_word [7] = .error Abort.indexOutOfBounds ∧
    read_short [7] = .error Abort.indexOutOfBounds ∧
    read_long [1, 0] = .error Abort.indexOutOfBounds ∧
    read_string [5, 0, 65] = .error Abort.indexOutOfBounds :=
  ⟨rfl, rfl, rfl, rfl, rfl, rfl, rfl⟩

/-- Peeling one `Except` bind that produced `.ok`. -/
theorem except_bind_ok {α β : Type} {x : Except Abort α} {f : α → Except Abort β}
    {b : β} (h : (x >>= f) = .ok b) : ∃ a, x = .ok a ∧ f a = .ok b := by
  cases x with
  | error e => simp [Bind.bind, Except.bind] at h
  | ok a => exact ⟨a, rfl, by simpa [Bind.bind, Except.bind] using h⟩

/-- A successful checked write leaves the buffer length unchanged. -/
theorem writeByte_length {img : List Nat} {idx v : Nat} {img2 : List Nat}
    (h : writeByte img idx v = .ok img2) : img2.length = img.length := by
  unfold writeByte at h
  split at h
  · injection h with h
    rw [← h]
    exact List.length_set img idx v
  · exact Except.noConfusion h

/-- Rendering an RGBA pixel leaves the buffer length unchanged. -/
theorem renderPixel_length {c : RawCel} {width bpp : Nat} {img : List Nat}
    {i : Nat} {px : Pixel} {img2 : List Nat} (hpx : px.isRGBA = true)
    (h : renderPixel c width bpp img i px = .ok img2) : img2.length = img.length := by
  cases px with
  | RGBA r g b a =>
    simp only [renderPixel] at h
    obtain ⟨i1, h1, h⟩ := except_bind_ok h
    obtain ⟨i2, h2, h⟩ := except_bind_ok h
    obtain ⟨i3, h3, h⟩ := except_bind_ok h
    rw [writeByte_length h, writeByte_length h3, writeByte_length h2,
      writeByte_length h1]
  | GrayScale value alpha => simp [Pixel.isRGBA] at hpx
  | Indexed index => simp [Pixel.isRGBA] at hpx

/-- Rendering a list of RGBA pixels leaves the buffer length unchanged. -/
theorem renderPixels_length {c : RawCel} {width bpp : Nat} :
    ∀ {pxs : List Pixel} {i : Nat} {img img2 : List Nat},
      pxs.all Pixel.isRGBA = true →
      renderPixels c width bpp i pxs img = .ok img2 → img2.length = img.length := by
  intro pxs
  induction pxs with
  | nil =>
    intro i img img2 _ h
    simp only [renderPixels] at h
    injection h with h
    rw [h]
  | cons px rest ih =>
    intro i img img2 hall h
    simp only [List.all_cons, Bool.and_eq_true] at hall
    simp only [renderPixels] at h
    obtain ⟨m, h1, h2⟩ := except_bind_ok h
    rw [ih hall.2 h2, renderPixel_length hall.1 h1]

/-- Rendering one RGBA-only cel leaves the buffer length unchanged. -/
theorem renderCel_length {width bpp : Nat} {cel : Cel} {img img2 : List Nat}
    (hc : cel.rgbaOnly = true) (h : renderCel width bpp cel img = .ok img2) :
    img2.length = img.length := by
  cases cel with
  | Raw c =>
    simp only [Cel.rgbaOnly] at hc
    simp only [renderCel] at h
    exact renderPixels_length hc h
  | Linked c =>
    simp only [renderCel] at h
    injection h with h
    rw [h]
  | Compressed c =>
    simp only [renderCel] at h
    injection h with h
    rw [h]

/-- Rendering a list of RGBA-only cels leaves the buffer length unchanged. -/
theorem renderCels_length {width bpp : Nat} :
    ∀ {cels : List Cel} {img img2 : List Nat},
      cels.all Cel.rgbaOnly = true →
      renderCels width bpp cels img = .ok img2 → img2.length = img.length := by
  intro cels
  induction cels with
  | nil =>
    intro img img2 _ h
    simp only [renderCels] at h
    injection h with h
    rw [h]
  | cons cel rest ih =>
    intro img img2 hall h
    simp only [List.all_cons, Bool.and_eq_true] at hall
    simp only [renderCels] at h
    obtain ⟨m, h1, h2⟩ := except_bind_ok h
    rw [ih hall.2 h2, renderCel_length hall.1 h1]

/-- Rendering the layers of an RGBA-only frame leaves the buffer length
unchanged. -/
theorem renderLayers_length {width bpp : Nat} :
    ∀ {layers : List Layer} {img img2 : List Nat},
      layers.all (fun l => l.cels.all Cel.rgbaOnly) = true →
      renderLayers width bpp layers img = .ok img2 → img2.length = img.length := by
  intro layers
  induction layers with
  | nil =>
    intro img img2 _ h
    simp only [renderLayers] at h
    injection h with h
    rw [h]
  | cons layer rest ih =>
    intro img img2 hall h
    simp only [List.all_cons, Bool.and_eq_true] at hall
    simp only [renderLayers] at h
    obtain ⟨m, h1, h2⟩ := except_bind_ok h
    rw [ih hall.2 h2, renderCels_length hall.1 h1]

/-- Rendering the frames of an RGBA-only document leaves the buffer length
unchanged. -/
theorem renderFrames_length {width bpp : Nat} :
    ∀ {frames : List Frame} {img img2 : List Nat},
      frames.all (fun f => f.layers.all (fun l => l.cels.all Cel.rgbaOnly)) = true →
      renderFrames width bpp frames img = .ok img2 → img2.length = img.length := by
  intro frames
  induction frames with
  | nil =>
    intro img img2 _ h
    simp only [renderFrames] at h
    injection h with h
    rw [h]
  | cons frame rest ih =>
    intro img img2 hall h
    simp only [List.all_cons, Bool.and_eq_true] at hall
    simp only [renderFrames] at h
    obtain ⟨m, h1, h2⟩ := except_bind_ok h
    rw [ih hall.2 h2, renderLayers_length hall.1 h1]

/-- Claim C5, amended: `Ase::render` takes only the document (no frame
index), cannot fail with a frame-index error (its only failure is an
out-of-range buffer-write panic), and composites the cels of *every* frame
onto one buffer; when every Raw-cel pixel in the document is RGBA, every
write is positional, so a successful render returns a buffer of exactly
`canvas_width × canvas_height × bytes-per-pixel` bytes. -/
theorem render_buffer_length_c5 (a : Ase) (buf : List Nat)
    (hr : a.rgbaOnly = true) (h : Ase.render a = .ok buf) :
    buf.length = a.header.width * a.header.height * a.header.color_depth.offset := by
  simp only [Ase.render] at h
  simp only [Ase.rgbaOnly] at hr
  rw [renderFrames_length hr h, List.length_replicate]

/-- Witness for `render_buffer_length_c5` at the concrete document
`doc_c5`. -/
theorem render_buffer_length_c5_witness :
    Ase.rgbaOnly doc_c5 = true ∧
    ([255, 0, 0, 255] : List Nat).length =
      doc_c5.header.width * doc_c5.header.height * doc_c5.header.color_depth.offset :=
  ⟨rfl, render_buffer_length_c5 doc_c5 [255, 0, 0, 255] rfl rfl⟩

/-- The byte length of `k` Path chunks. -/
theorem pathStream_length (k : Nat) : (pathStream k).length = 6 * k := by
  induction k with
  | zero => rfl
  | succ n ih =>
    simp [pathStream, pathChunkBytes, ih]
    omega

set_option maxRecDepth 10000 in
/-- Evaluating the frame-header reads of `Frame::new` on `frameBytes_c8`:
the decoded legacy count is `old`, the decoded extended count is `new`, and
the chunk loop is entered with count `if new = 0 then old else new`. -/
theorem frame_new_c8_eval (old new k : Nat) (hold : old < 65536)
    (hnew : new < 4294967296) :
    Frame.new inflate0 hdrRGBA (frameBytes_c8 old new k) =
      Frame.processChunks inflate0 hdrRGBA (frameBytes_c8 old new k) 16
        (if new = 0 then old else new)
        { size := 0, magic_number := 0, old_chunks := old, frame_duration := 0,
          new_chunks := new, chunks := [], layers := [] } := by
  have e1 : old % 256 % 256 + 256 * (old / 256 % 256) = old := by omega
  have e2 : new % 256 % 256 + 256 * (new / 256 % 256 % 256) +
      65536 * (new / 65536 % 256 % 256) + 16777216 * (new / 16777216 % 256 % 256) = new := by
    omega
  have base : Frame.new inflate0 hdrRGBA (frameBytes_c8 old new k) =
      Frame.processChunks inflate0 hdrRGBA (frameBytes_c8 old new k) 16
        (if (new % 256 % 256 + 256 * (new / 256 % 256 % 256) +
              65536 * (new / 65536 % 256 % 256) +
              16777216 * (new / 16777216 % 256 % 256)) = 0
          then old % 256 % 256 + 256 * (old / 256 % 256)
          else new % 256 % 256 + 256 * (new / 256 % 256 % 256) +
            65536 * (new / 65536 % 256 % 256) + 16777216 * (new / 16777216 % 256 % 256))
        { size := 0, magic_number := 0,
          old_chunks := old % 256 % 256 + 256 * (old / 256 % 256),
          frame_duration := 0,
          new_chunks := new % 256 % 256 + 256 * (new / 256 % 256 % 256) +
            65536 * (new / 65536 % 256 % 256) + 16777216 * (new / 16777216 % 256 % 256),
          chunks := [], layers := [] } := rfl
  rw [e1, e2] at base
  exact base

/-- Running the chunk loop `count` times over a stream of `k ≥ count` Path
chunks appends exactly `count` Path chunks to the frame. -/
theorem processChunks_path :
    ∀ (count offset k : Nat) (frame : Frame) (raw : List Nat),
      count ≤ k → raw.drop offset = pathStream k → offset ≤ raw.length →
      Frame.processChunks inflate0 hdrRGBA raw offset count frame =
        .ok { frame with chunks := frame.chunks ++ List.replicate count Chunk.Path } := by
  intro count
  induction count with
  | zero =>
    intro offset k frame raw _ _ _
    simp [Frame.processChunks]
  | succ n ih =>
    intro offset k frame raw hk hdrop hoff
    obtain ⟨k2, rfl⟩ : ∃ k2, k = k2 + 1 := ⟨k - 1, by omega⟩
    have hs : slice_from raw offset = .ok (pathStream (k2 + 1)) := by
      unfold slice_from
      rw [if_pos hoff, hdrop]
    have hchunk : Chunk.new inflate0 hdrRGBA (pathStream (k2 + 1)) =
        .ok (Chunk.Path, 6) := rfl
    have hdrop2 : raw.drop (offset + 6) = pathStream k2 := by
      have h66 : raw.drop (offset + 6) = (raw.drop offset).drop 6 := by
        rw [List.drop_drop, Nat.add_comm]
      rw [h66, hdrop]
      rfl
    have hoff2 : offset + 6 ≤ raw.length := by
      have hlen : (raw.drop offset).length = raw.length - offset :=
        List.length_drop offset raw
      rw [hdrop, pathStream_length] at hlen
      omega
    simp only [Frame.processChunks, hs, hchunk, Bind.bind, Except.bind]
    rw [ih (offset + 6) k2 _ raw (by omega) hdrop2 hoff2]
    simp [List.replicate_succ, List.append_assoc]

/-- Claim C8 (confirmed): for any legacy 16-bit count `old`, extended 32-bit
count `new` and a frame whose byte stream provides `k` decodable chunks, the
frame assembler decodes `old_chunks = old` and `new_chunks = new`, and runs
the chunk decoder exactly `new` times when `new ≠ 0` and exactly `old` times
otherwise — here observed as the number of collected Path chunks. -/
theorem frame_chunk_count_c8 (old new k : Nat) (hold : old < 65536)
    (hnew : new < 4294967296) (hk : (if new = 0 then old else new) ≤ k) :
    (Frame.new inflate0 hdrRGBA (frameBytes_c8 old new k)).map
        (fun f => (f.old_chunks, f.new_chunks, f.chunks.length)) =
      .ok (old, new, if new = 0 then old else new) := by
  have hoff : 16 ≤ (frameBytes_c8 old new k).length := by
    simp [frameBytes_c8]
  have hdrop : (frameBytes_c8 old new k).drop 16 = pathStream k := rfl
  rw [frame_new_c8_eval old new k hold hnew,
    processChunks_path (if new = 0 then old else new) 16 k _ _ hk hdrop hoff]
  simp [Except.map]

/-- Witness for `frame_chunk_count_c8` at the spec's two examples:
legacy 5 / extended 0 gives 5 decoded chunks; legacy 5 / extended 300 gives
300 decoded chunks. -/
theorem frame_chunk_count_c8_witness :
    (Frame.new inflate0 hdrRGBA (frameBytes_c8 5 0 5)).map
        (fun f => (f.old_chunks, f.new_chunks, f.chunks.length)) = .ok (5, 0, 5) ∧
    (Frame.new inflate0 hdrRGBA (frameBytes_c8 5 300 300)).map
        (fun f => (f.old_chunks, f.new_chunks, f.chunks.length)) = .ok (5, 300, 300) := by
  constructor
  · have h := frame_chunk_count_c8 5 0 5 (by decide) (by decide) (by decide)
    simpa using h
  · have h := frame_chunk_count_c8 5 300 300 (by decide) (by decide) (by decide)
    simpa using h

/-- Two lists that agree (via `get?`) below `n` have equal `take n`. -/
theorem take_eq_of_get?_eq :
    ∀ (n : Nat) (l1 l2 : List Nat),
      (∀ i, i < n → l1.get? i = l2.get? i) → l1.take n = l2.take n
  | 0, _, _, _ => by simp
  | _ + 1, [], [], _ => rfl
  | _ + 1, [], _ :: _, h => by
    have h0 := h 0 (by omega)
    simp [List.get?] at h0
  | _ + 1, _ :: _, [], h => by
    have h0 := h 0 (by omega)
    simp [List.get?] at h0
  | n + 1, a :: as, b :: bs, h => by
    have h0 := h 0 (by omega)
    simp only [List.get?, Option.some.injEq] at h0
    simp only [List.take_succ_cons, h0]
    rw [take_eq_of_get?_eq n as bs (fun i hi => h (i + 1) (by omega))]

set_option maxRecDepth 10000 in
/-- `Header::new` inspects only the first 32 bytes of its input. -/
theorem header_new_take_32 (l : List Nat) : Header.new l = Header.new (l.take 32) := by
  by_cases h32 : 32 ≤ l.length
  · rcases l with _ | ⟨b0, l⟩
    · simp at h32
    rcases l with _ | ⟨b1, l⟩
    · simp at h32
    rcases l with _ | ⟨b2, l⟩
    · simp at h32
    rcases l with _ | ⟨b3, l⟩
    · simp at h32
    rcases l with _ | ⟨b4, l⟩
    · simp at h32
    rcases l with _ | ⟨b5, l⟩
    · simp at h32
    rcases l with _ | ⟨b6, l⟩
    · simp at h32
    rcases l with _ | ⟨b7, l⟩
    · simp at h32
    rcases l with _ | ⟨b8, l⟩
    · simp at h32
    rcases l with _ | ⟨b9, l⟩
    · simp at h32
    rcases l with _ | ⟨b10, l⟩
    · simp at h32
    rcases l with _ | ⟨b11, l⟩
    · simp at h32
    rcases l with _ | ⟨b12, l⟩
    · simp at h32
    rcases l with _ | ⟨b13, l⟩
    · simp at h32
    rcases l with _ | ⟨b14, l⟩
    · simp at h32
    rcases l with _ | ⟨b15, l⟩
    · simp at h32
    rcases l with _ | ⟨b16, l⟩
    · simp at h32
    rcases l with _ | ⟨b17, l⟩
    · simp at h32
    rcases l with _ | ⟨b18, l⟩
    · simp at h32
    rcases l with _ | ⟨b19, l⟩
    · simp at h32
    rcases l with _ | ⟨b20, l⟩
    · simp at h32
    rcases l with _ | ⟨b21, l⟩
    · simp at h32
    rcases l with _ | ⟨b22, l⟩
    · simp at h32
    rcases l with _ | ⟨b23, l⟩
    · simp at h32
    rcases l with _ | ⟨b24, l⟩
    · simp at h32
    rcases l with _ | ⟨b25, l⟩
    · simp at h32
    rcases l with _ | ⟨b26, l⟩
    · simp at h32
    rcases l with _ | ⟨b27, l⟩
    · simp at h32
    rcases l with _ | ⟨b28, l⟩
    · simp at h32
    rcases l with _ | ⟨b29, l⟩
    · simp at h32
    rcases l with _ | ⟨b30, l⟩
    · simp at h32
    rcases l with _ | ⟨b31, l⟩
    · simp at h32
    rfl
  · rw [List.take_of_length_le (by omega)]

/-- Claim C10 (confirmed): header decoding depends only on the bytes at
offsets 0 through 31 — any two inputs that agree on those positions decode
to identical results (the same `Header` value, or the same panic), so the
reserved bytes at offsets 32 through 127 never influence the decoded header
or cause a header-decode failure. -/
theorem header_reads_only_prefix_c10 (b1 b2 : List Nat)
    (h : ∀ i, i < 32 → b1.get? i = b2.get? i) : Header.new b1 = Header.new b2 := by
  rw [header_new_take_32 b1, header_new_take_32 b2, take_eq_of_get?_eq 32 b1 b2 h]

/-- Witness for `header_reads_only_prefix_c10`: `buf_c10_a` and `buf_c10_b`
share their first 32 bytes and differ on every reserved byte from offset 32
to 127, yet decode identically. -/
theorem header_reads_only_prefix_c10_witness :
    (∀ i, i < 32 → buf_c10_a.get? i = buf_c10_b.get? i) ∧
    Header.new buf_c10_a = Header.new buf_c10_b :=
  ⟨by decide, header_reads_only_prefix_c10 buf_c10_a buf_c10_b (by decide)⟩
